import Mathlib

/-!
Verification development for the ai-stylist wardrobe analysis pipeline.

The pipeline (category classifier, color analyzer, record assembly) is
embedded shallowly from the repository source.  Machine floats of the
source are modelled as exact rationals; decoded images are modelled as
lists of 8-bit RGB triples.
-/

namespace AIStylist

/-! ### Category classifier (detect_category) -/

/-- Prefix test on character lists: does the second list start with the first? -/
def prefixMatch : List Char → List Char → Bool
  | [], _ => true
  | _ :: _, [] => false
  | p :: ps, c :: cs => p == c && prefixMatch ps cs

/-- Substring containment test, embedding the Python `pat in name` operator. -/
def containsSub (pat : List Char) : List Char → Bool
  | [] => prefixMatch pat []
  | c :: cs => prefixMatch pat (c :: cs) || containsSub pat cs

/-- Lower-cased character sequence of a filename, embedding `filename.lower()`. -/
def lowerName (filename : String) : List Char :=
  filename.toList.map Char.toLower

def tshirtRule (name : List Char) : Bool :=
  containsSub "tshirt".toList name || containsSub "t-shirt".toList name

def shirtRule (name : List Char) : Bool :=
  containsSub "shirt".toList name

def jeansRule (name : List Char) : Bool :=
  containsSub "jean".toList name || containsSub "denim".toList name

def trousersRule (name : List Char) : Bool :=
  containsSub "trouser".toList name || containsSub "pant".toList name

/-- Modelled from the spec: the source snippet elides the rules after
`trousers` with a comment; the spec fixes the remaining precedence as
shoes > suit > other, matched on the obvious substrings. -/
def shoesRule (name : List Char) : Bool :=
  containsSub "shoe".toList name

/-- Modelled from the spec: see `shoesRule`. -/
def suitRule (name : List Char) : Bool :=
  containsSub "suit".toList name

/-- Category detection from the filename: ordered substring pattern match,
most specific first, embedding `detect_category` of the source
(tshirt and trousers rules from the snippet, tail rules from the spec). -/
def detect_category (filename : String) : String :=
  let name := lowerName filename
  if tshirtRule name then "tshirt"
  else if shirtRule name then "shirt"
  else if jeansRule name then "jeans"
  else if trousersRule name then "trousers"
  else if shoesRule name then "shoes"
  else if suitRule name then "suit"
  else "other"

/-- Spec entry-point name for category classification. -/
def classify_category (filename : String) : String :=
  detect_category filename

/-- The fixed category taxonomy. -/
def categoryTaxonomy : List String :=
  ["shirt", "tshirt", "jeans", "trousers", "shoes", "suit", "other"]

/-- True when no pattern rule fires on the filename. -/
def noCategoryPattern (filename : String) : Bool :=
  let name := lowerName filename
  !(tshirtRule name || shirtRule name || jeansRule name ||
    trousersRule name || shoesRule name || suitRule name)

/-- C1: for every filename, classify_category returns exactly one value of the
fixed taxonomy (it is a total Lean function, so it never throws), and a
filename matching no pattern resolves to "other". -/
theorem classify_category_total (filename : String) :
    classify_category filename ∈ categoryTaxonomy ∧
    (noCategoryPattern filename = true → classify_category filename = "other") := by
  constructor
  · unfold classify_category detect_category categoryTaxonomy
    dsimp only
    split_ifs <;> simp
  · intro hnone
    unfold noCategoryPattern at hnone
    simp only [Bool.not_eq_true', Bool.or_eq_false_iff] at hnone
    obtain ⟨⟨⟨⟨⟨h1, h2⟩, h3⟩, h4⟩, h5⟩, h6⟩ := hnone
    unfold classify_category detect_category
    simp [h1, h2, h3, h4, h5, h6]

/-- C1 witness: the empty filename matches no pattern and resolves to "other". -/
theorem classify_category_total_witness :
    classify_category "" ∈ categoryTaxonomy ∧ classify_category "" = "other" :=
  ⟨(classify_category_total "").1, (classify_category_total "").2 (by decide)⟩

/-- C5: matching is ordered most-specific-first and stops at the first rule
that fires, with precedence tshirt > shirt > jeans > trousers > shoes >
suit > other; in particular "blue-tshirt-casual.png" resolves to "tshirt". -/
theorem detect_category_precedence (f : String) :
    (tshirtRule (lowerName f) = true → detect_category f = "tshirt") ∧
    (tshirtRule (lowerName f) = false → shirtRule (lowerName f) = true →
      detect_category f = "shirt") ∧
    (tshirtRule (lowerName f) = false → shirtRule (lowerName f) = false →
      jeansRule (lowerName f) = true → detect_category f = "jeans") ∧
    (tshirtRule (lowerName f) = false → shirtRule (lowerName f) = false →
      jeansRule (lowerName f) = false → trousersRule (lowerName f) = true →
      detect_category f = "trousers") ∧
    (tshirtRule (lowerName f) = false → shirtRule (lowerName f) = false →
      jeansRule (lowerName f) = false → trousersRule (lowerName f) = false →
      shoesRule (lowerName f) = true → detect_category f = "shoes") ∧
    (tshirtRule (lowerName f) = false → shirtRule (lowerName f) = false →
      jeansRule (lowerName f) = false → trousersRule (lowerName f) = false →
      shoesRule (lowerName f) = false → suitRule (lowerName f) = true →
      detect_category f = "suit") ∧
    detect_category "blue-tshirt-casual.png" = "tshirt" := by
  refine ⟨?_, ?_, ?_, ?_, ?_, ?_, by decide⟩ <;>
    (intros; unfold detect_category; simp [*])

/-- C5 witness: "red-shirt.png" does not fire the tshirt rule but fires the
shirt rule, hence resolves to "shirt" by the precedence theorem. -/
theorem detect_category_precedence_witness :
    detect_category "red-shirt.png" = "shirt" :=
  (detect_category_precedence "red-shirt.png").2.1 (by decide) (by decide)

/-! ### Color classification (HSV decision procedure) -/

/-- Fractional-part adjustment for the hue, embedding the Python `% 1.0` in
colorsys.rgb_to_hsv.  There the argument is always in [-1/6, 5/6] (the raw
hue lies in [-1, 5] before division by 6), so adding 1 to a negative value
is exactly the `% 1.0` of the source on every reachable input. -/
def ratMod1 (q : ℚ) : ℚ :=
  if q < 0 then q + 1 else q

/-- RGB (each channel in [0,1]) to HSV, embedding colorsys.rgb_to_hsv over
exact rationals. -/
def rgb_to_hsv (r g b : ℚ) : ℚ × ℚ × ℚ :=
  let maxc := max r (max g b)
  let minc := min r (min g b)
  let v := maxc
  if maxc = minc then (0, 0, v)
  else
    let s := (maxc - minc) / maxc
    let rc := (maxc - r) / (maxc - minc)
    let gc := (maxc - g) / (maxc - minc)
    let bc := (maxc - b) / (maxc - minc)
    let h := if r = maxc then bc - gc
             else if g = maxc then 2 + rc - bc
             else 4 + gc - rc
    (ratMod1 (h / 6), s, v)

/-- Shade refinement of a base hue name by value and saturation.
Modelled from the spec: each hue band is refined into dark and light
variants by fixed value and saturation thresholds. -/
def shadeName (base : String) (s v : ℚ) : String :=
  if v < 7/20 then "dark " ++ base
  else if 17/20 < v ∧ s < 1/2 then "light " ++ base
  else base

/-- HSV color classification, embedding `classify_color` of the source:
the grayscale ladder (saturation < 0.15) and the red and orange band
edges (15, 345, 45 degrees) are from the source snippet; the remaining
hue bands, the shade refinement and the special cases powder blue and
beige are modelled from the spec (hue bands red, orange, yellow, green,
cyan, blue, purple, pink wrapping at 0/360 degrees). -/
def classify_color (h s v : ℚ) : String :=
  if s < 3/20 then
    if v < 1/5 then "black"
    else if v < 7/20 then "dark gray"
    else if v < 13/20 then "gray"
    else if v < 17/20 then "light gray"
    else "white"
  else if h < 15 ∨ 345 < h then shadeName "red" s v
  else if h < 45 then
    if 3/4 < v ∧ s < 2/5 then "beige" else shadeName "orange" s v
  else if h < 70 then shadeName "yellow" s v
  else if h < 170 then shadeName "green" s v
  else if h < 200 then shadeName "cyan" s v
  else if h < 260 then
    if s < 2/5 ∧ 7/10 < v then "powder blue" else shadeName "blue" s v
  else if h < 290 then shadeName "purple" s v
  else shadeName "pink" s v

/-- The fixed palette of color names the classifier can emit. -/
def colorPalette : List String :=
  ["black", "dark gray", "gray", "light gray", "white", "beige", "powder blue",
   "red", "dark red", "light red",
   "orange", "dark orange", "light orange",
   "yellow", "dark yellow", "light yellow",
   "green", "dark green", "light green",
   "cyan", "dark cyan", "light cyan",
   "blue", "dark blue", "light blue",
   "purple", "dark purple", "light purple",
   "pink", "dark pink", "light pink"]

lemma shadeName_red_mem (s v : ℚ) : shadeName "red" s v ∈ colorPalette := by
  unfold shadeName colorPalette; split_ifs <;> simp

lemma shadeName_orange_mem (s v : ℚ) : shadeName "orange" s v ∈ colorPalette := by
  unfold shadeName colorPalette; split_ifs <;> simp

lemma shadeName_yellow_mem (s v : ℚ) : shadeName "yellow" s v ∈ colorPalette := by
  unfold shadeName colorPalette; split_ifs <;> simp

lemma shadeName_green_mem (s v : ℚ) : shadeName "green" s v ∈ colorPalette := by
  unfold shadeName colorPalette; split_ifs <;> simp

lemma shadeName_cyan_mem (s v : ℚ) : shadeName "cyan" s v ∈ colorPalette := by
  unfold shadeName colorPalette; split_ifs <;> simp

lemma shadeName_blue_mem (s v : ℚ) : shadeName "blue" s v ∈ colorPalette := by
  unfold shadeName colorPalette; split_ifs <;> simp

lemma shadeName_purple_mem (s v : ℚ) : shadeName "purple" s v ∈ colorPalette := by
  unfold shadeName colorPalette; split_ifs <;> simp

lemma shadeName_pink_mem (s v : ℚ) : shadeName "pink" s v ∈ colorPalette := by
  unfold shadeName colorPalette; split_ifs <;> simp

/-- The classifier is total into the fixed palette. -/
lemma classify_color_mem (h s v : ℚ) : classify_color h s v ∈ colorPalette := by
  unfold classify_color
  split_ifs <;>
    first
      | exact shadeName_red_mem s v
      | exact shadeName_orange_mem s v
      | exact shadeName_yellow_mem s v
      | exact shadeName_green_mem s v
      | exact shadeName_cyan_mem s v
      | exact shadeName_blue_mem s v
      | exact shadeName_purple_mem s v
      | exact shadeName_pink_mem s v
      | simp [colorPalette]

/-! ### Pixel pipeline (detect_dominant_color) -/

/-- An 8-bit RGB pixel of the decoded image. -/
structure RGB where
  r : ℕ
  g : ℕ
  b : ℕ
deriving DecidableEq, Repr

/-- Exact-rational RGB triple (cluster centroids). -/
def QRGB : Type := ℚ × ℚ × ℚ

def toQ (p : RGB) : QRGB :=
  ((p.r : ℚ), (p.g : ℚ), (p.b : ℚ))

/-- Centroid-RGB to palette name, embedding `_rgb_to_color_name`:
normalize channels to [0,1], convert to HSV, scale hue to degrees,
classify. -/
def rgb_to_color_name (c : QRGB) : String :=
  let hsv := rgb_to_hsv (c.1 / 255) (c.2.1 / 255) (c.2.2 / 255)
  classify_color (hsv.1 * 360) hsv.2.1 hsv.2.2

def sumRGB (p : RGB) : ℕ :=
  p.r + p.g + p.b

/-- Background suppression, embedding
`non_white_pixels = pixels[np.sum(pixels, axis=1) < 700]`:
keep exactly the pixels whose channel sum is strictly below 700. -/
def nonWhite (pixels : List RGB) : List RGB :=
  pixels.filter (fun p => decide (sumRGB p < 700))

/-- The pixel set handed to clustering.  The strict-below-700 filter is from
the source; the fallback to the unfiltered set when the filter removes
every pixel, and the deterministic cap of 1000 sample pixels, are
modelled from the spec (the source snippet elides both; the architecture
document states the 1000-pixel cap). -/
def samplePixels (pixels : List RGB) : List RGB :=
  let nw := nonWhite pixels
  (if nw = [] then pixels else nw).take 1000

/-- Squared Euclidean distance between a centroid and a pixel. -/
def sqDist (c : QRGB) (p : RGB) : ℚ :=
  (c.1 - p.r)^2 + (c.2.1 - p.g)^2 + (c.2.2 - p.b)^2

/-- Index of the nearest centroid (first one on ties). -/
def nearestIdx (centers : List QRGB) (p : RGB) : ℕ :=
  (centers.enum.foldl
    (fun best ic => if sqDist ic.2 p < best.2 then (ic.1, sqDist ic.2 p) else best)
    (0, sqDist (centers.headD (0, 0, 0)) p)).1

/-- Mean of a pixel cluster; an empty cluster keeps its old centroid. -/
def meanCenter (old : QRGB) (ps : List RGB) : QRGB :=
  match ps with
  | [] => old
  | _ =>
    let n : ℚ := ps.length
    ((ps.map (fun p => (p.r : ℚ))).sum / n,
     (ps.map (fun p => (p.g : ℚ))).sum / n,
     (ps.map (fun p => (p.b : ℚ))).sum / n)

/-- One Lloyd iteration: reassign pixels and recompute the centroids. -/
def lloydStep (pixels : List RGB) (centers : List QRGB) : List QRGB :=
  (List.range centers.length).map (fun i =>
    meanCenter (centers.getD i (0, 0, 0))
      (pixels.filter (fun p => nearestIdx centers p == i)))

def lloydIter : ℕ → List RGB → List QRGB → List QRGB
  | 0, _, cs => cs
  | n + 1, px, cs => lloydIter n px (lloydStep px cs)

/-- Seeded deterministic choice of the initial centroids among the distinct
pixel values.  Modelled from the spec: the source relies on
scikit-learn's KMeans(random_state=42), which the spec directs to
re-architect as an explicit, seeded, capped-iteration k-means with the
same determinism guarantee. -/
def seededInit (seed k : ℕ) (distinct : List RGB) : List QRGB :=
  let n := distinct.length
  let rot := if n = 0 then 0 else seed % n
  ((distinct.drop rot ++ distinct.take rot).take k).map toQ

/-- The single most frequent pixel value (first one on ties). -/
def mostFrequent (pixels : List RGB) : RGB :=
  pixels.foldl
    (fun best q => if pixels.count best < pixels.count q then q else best)
    (pixels.headD ⟨0, 0, 0⟩)

/-- Capped-iteration k-means: centroid of the largest cluster (first on
ties) after 100 Lloyd iterations from the seeded initial centroids. -/
def kmeansDominant (seed k : ℕ) (pixels : List RGB) : QRGB :=
  let centers := lloydIter 100 pixels (seededInit seed k pixels.dedup)
  let counts := (List.range centers.length).map
    (fun i => (pixels.filter (fun p => nearestIdx centers p == i)).length)
  let bestIdx := (counts.enum.foldl
    (fun best ic => if best.2 < ic.2 then ic else best) (0, counts.headD 0)).1
  centers.getD bestIdx (0, 0, 0)

/-- Dominant color of a pixel set: k-means centroid of the largest cluster,
or — modelled from the spec for the degenerate case of fewer distinct
pixel values than clusters — the single most frequent pixel value. -/
def dominantColor (seed k : ℕ) (pixels : List RGB) : QRGB :=
  if pixels.dedup.length < k then toQ (mostFrequent pixels)
  else kmeansDominant seed k pixels

/-- Number of clusters of the source configuration (n_clusters=3). -/
def nClusters : ℕ := 3

/-- Fixed random seed of the source configuration (random_state=42). -/
def kmeansSeed : ℕ := 42

/-- Color analysis at an explicit seed: background suppression and
sampling, clustering, HSV naming.  Decoding and the 300x300 resize of
the source are performed by the imaging library; their output is the
pixel list this function consumes. -/
def analyze_color_seeded (seed : ℕ) (pixels : List RGB) : String :=
  rgb_to_color_name (dominantColor seed nClusters (samplePixels pixels))

/-- Full color analysis, embedding `_detect_dominant_color` at the source's
fixed seed. -/
def detect_dominant_color (pixels : List RGB) : String :=
  analyze_color_seeded kmeansSeed pixels

/-- Spec entry-point name for color analysis. -/
def analyze_color (pixels : List RGB) : String :=
  detect_dominant_color pixels

lemma rgb_to_color_name_mem (c : QRGB) : rgb_to_color_name c ∈ colorPalette := by
  unfold rgb_to_color_name
  exact classify_color_mem _ _ _

lemma rgb_name_mid_gray : rgb_to_color_name (toQ ⟨128, 128, 128⟩) = "gray" := by
  unfold rgb_to_color_name toQ
  norm_num [rgb_to_hsv, classify_color]

lemma rgb_name_black : rgb_to_color_name (toQ ⟨0, 0, 0⟩) = "black" := by
  unfold rgb_to_color_name toQ
  norm_num [rgb_to_hsv, classify_color]

lemma rgb_name_white : rgb_to_color_name (toQ ⟨255, 255, 255⟩) = "white" := by
  unfold rgb_to_color_name toQ
  norm_num [rgb_to_hsv, classify_color]

/-- C4: at saturation below 0.15 the classifier returns the grayscale name
determined solely by value through the fixed ladder, and the boundary
pixels (128,128,128), (0,0,0), (255,255,255) classify as gray, black and
white respectively. -/
theorem grayscale_ladder (h s v : ℚ) (hs : s < 3/20) :
    classify_color h s v =
      (if v < 1/5 then "black"
       else if v < 7/20 then "dark gray"
       else if v < 13/20 then "gray"
       else if v < 17/20 then "light gray"
       else "white") ∧
    rgb_to_color_name (toQ ⟨128, 128, 128⟩) = "gray" ∧
    rgb_to_color_name (toQ ⟨0, 0, 0⟩) = "black" ∧
    rgb_to_color_name (toQ ⟨255, 255, 255⟩) = "white" := by
  refine ⟨?_, rgb_name_mid_gray, rgb_name_black, rgb_name_white⟩
  unfold classify_color
  rw [if_pos hs]

/-- C4 witness: at hue 0, saturation 0, value 1/2 the hypothesis holds and
the ladder yields "gray". -/
theorem grayscale_ladder_witness :
    classify_color 0 0 (1/2) =
      (if (1/2 : ℚ) < 1/5 then "black"
       else if (1/2 : ℚ) < 7/20 then "dark gray"
       else if (1/2 : ℚ) < 13/20 then "gray"
       else if (1/2 : ℚ) < 17/20 then "light gray"
       else "white") ∧
    rgb_to_color_name (toQ ⟨128, 128, 128⟩) = "gray" ∧
    rgb_to_color_name (toQ ⟨0, 0, 0⟩) = "black" ∧
    rgb_to_color_name (toQ ⟨255, 255, 255⟩) = "white" :=
  grayscale_ladder 0 0 (1/2) (by norm_num)

/-- C2: for a fixed seed, two runs of the color analysis on identical input
pixel data return the identical color name, both at an arbitrary seed and
at the source's fixed seed 42. -/
theorem analyze_color_deterministic (seed : ℕ) (px₁ px₂ : List RGB)
    (h : px₁ = px₂) :
    analyze_color_seeded seed px₁ = analyze_color_seeded seed px₂ ∧
    analyze_color px₁ = analyze_color px₂ :=
  ⟨by rw [h], by rw [h]⟩

/-- C2 witness: two runs on the same concrete one-pixel image agree. -/
theorem analyze_color_deterministic_witness :
    analyze_color_seeded kmeansSeed [⟨10, 20, 200⟩] =
      analyze_color_seeded kmeansSeed [⟨10, 20, 200⟩] ∧
    analyze_color [⟨10, 20, 200⟩] = analyze_color [⟨10, 20, 200⟩] :=
  analyze_color_deterministic kmeansSeed [⟨10, 20, 200⟩] [⟨10, 20, 200⟩] rfl

/-- C3 (amended): background suppression keeps exactly the pixels with
channel sum strictly below 700 — hence discards exactly those with sum at
least 700, including sum exactly 700 — and when it removes every pixel the
analyzer falls back to the unfiltered pixel set and still returns a
palette color name. -/
theorem background_suppression (pixels qixels : List RGB) (p : RGB)
    (hall : nonWhite qixels = []) :
    (p ∈ nonWhite pixels ↔ p ∈ pixels ∧ sumRGB p < 700) ∧
    analyze_color qixels =
      rgb_to_color_name (dominantColor kmeansSeed nClusters (qixels.take 1000)) ∧
    analyze_color qixels ∈ colorPalette := by
  refine ⟨?_, ?_, rgb_to_color_name_mem _⟩
  · simp [nonWhite, List.mem_filter]
  · unfold analyze_color detect_dominant_color analyze_color_seeded samplePixels
    rw [hall]
    simp

/-- C3 witness: on the all-bright image [(255,255,255)] the filter removes
every pixel and the analysis falls back to the unfiltered set. -/
theorem background_suppression_witness :
    ((⟨10, 20, 30⟩ : RGB) ∈ nonWhite [⟨10, 20, 30⟩] ↔
      (⟨10, 20, 30⟩ : RGB) ∈ [(⟨10, 20, 30⟩ : RGB)] ∧ sumRGB ⟨10, 20, 30⟩ < 700) ∧
    analyze_color [⟨255, 255, 255⟩] =
      rgb_to_color_name
        (dominantColor kmeansSeed nClusters ([(⟨255, 255, 255⟩ : RGB)].take 1000)) ∧
    analyze_color [⟨255, 255, 255⟩] ∈ colorPalette :=
  background_suppression [⟨10, 20, 30⟩] [⟨255, 255, 255⟩] ⟨10, 20, 30⟩ (by decide)

/-- C3 counterexample: the pixel (234,233,233) has channel sum exactly 700,
so the claim as stated (discard exactly the sums exceeding 700) predicts
it is kept, but the source filter keeps only sums strictly below 700 and
discards it. -/
theorem background_suppression_boundary :
    sumRGB ⟨234, 233, 233⟩ = 700 ∧
    (⟨234, 233, 233⟩ : RGB) ∈ [(⟨234, 233, 233⟩ : RGB)] ∧
    ¬(700 < sumRGB (⟨234, 233, 233⟩ : RGB)) ∧
    (⟨234, 233, 233⟩ : RGB) ∉ nonWhite [⟨234, 233, 233⟩] := by
  decide

/-- C8: when the sampled pixel set has fewer distinct values than the 3
clusters, the analysis does not fail: the dominant color is the single
most frequent pixel value and the result is still a palette name. -/
theorem degenerate_clustering_fallback (pixels : List RGB)
    (hdeg : (samplePixels pixels).dedup.length < nClusters) :
    analyze_color pixels =
      rgb_to_color_name (toQ (mostFrequent (samplePixels pixels))) ∧
    analyze_color pixels ∈ colorPalette := by
  refine ⟨?_, rgb_to_color_name_mem _⟩
  unfold analyze_color detect_dominant_color analyze_color_seeded dominantColor
  rw [if_pos hdeg]

/-- C8 witness: a two-pixel image with a single distinct value is degenerate
and resolves through the most-frequent-pixel fallback. -/
theorem degenerate_clustering_fallback_witness :
    analyze_color [⟨200, 30, 30⟩, ⟨200, 30, 30⟩] =
      rgb_to_color_name
        (toQ (mostFrequent (samplePixels [⟨200, 30, 30⟩, ⟨200, 30, 30⟩]))) ∧
    analyze_color [⟨200, 30, 30⟩, ⟨200, 30, 30⟩] ∈ colorPalette :=
  degenerate_clustering_fallback [⟨200, 30, 30⟩, ⟨200, 30, 30⟩] (by decide)

/-! ### Record assembly (_analyze_image) -/

/-- Python str.title over the characters: the first letter of each run of
letters is uppercased, subsequent letters are lowercased. -/
def titleAux : Bool → List Char → List Char
  | _, [] => []
  | prevAlpha, c :: cs =>
    (if c.isAlpha then (if prevAlpha then c.toLower else c.toUpper) else c)
      :: titleAux c.isAlpha cs

def titleStr (s : String) : String :=
  String.mk (titleAux false s.toList)

/-- Description composition, embedding the f-string of `_analyze_image`:
the title-cased color, a space, and the category verbatim. -/
def mkDescription (color category : String) : String :=
  titleStr color ++ " " ++ category

/-- The persisted wardrobe record. -/
structure WardrobeItem where
  id : String
  filename : String
  category : String
  color : String
  path : String
  description : String
deriving DecidableEq, Repr

/-- Record assembly, embedding `_analyze_image`: category from the filename,
color from the image pixels, description derived from both.  The
identifier comes from the caller's uuid library and is passed in; the
stored bytes are decoded to pixels by the imaging library. -/
def build_item (newId : String) (pixels : List RGB) (filename path : String) :
    WardrobeItem :=
  let category := detect_category filename
  let color := analyze_color pixels
  { id := newId, filename := filename, category := category, color := color,
    path := path, description := mkDescription color category }

/-- Modelled from the spec: the bulk re-analysis trigger is not part of the
sources under src; per the spec it re-runs the analysis stages of
build_item on the stored image bytes and replaces only the category,
color and description fields of the record. -/
def reanalyze (item : WardrobeItem) (pixels : List RGB) : WardrobeItem :=
  let category := detect_category item.filename
  let color := analyze_color pixels
  { item with
    category := category
    color := color
    description := mkDescription color category }

lemma analyze_red : analyze_color [⟨255, 0, 0⟩] = "red" := by
  have h1 : samplePixels [(⟨255, 0, 0⟩ : RGB)] = [⟨255, 0, 0⟩] := by decide
  unfold analyze_color detect_dominant_color analyze_color_seeded dominantColor
  rw [h1]
  rw [if_pos (by decide : ([(⟨255, 0, 0⟩ : RGB)]).dedup.length < nClusters)]
  rw [(by decide : mostFrequent [(⟨255, 0, 0⟩ : RGB)] = ⟨255, 0, 0⟩)]
  unfold rgb_to_color_name toQ
  norm_num [rgb_to_hsv, classify_color, shadeName, ratMod1, max_def, min_def]

/-- C6 (amended): record assembly composes the description as the
title-cased color, a space, and the category verbatim — the category word
is not capitalized — and the description is re-derivable purely from the
(color, category) pair of the record. -/
theorem description_composition (newId : String) (pixels : List RGB)
    (filename path : String) :
    (build_item newId pixels filename path).description =
      mkDescription (build_item newId pixels filename path).color
        (build_item newId pixels filename path).category ∧
    (build_item newId pixels filename path).description =
      titleStr (build_item newId pixels filename path).color ++ " " ++
        (build_item newId pixels filename path).category :=
  ⟨rfl, rfl⟩

/-- C6 counterexample: for the red one-pixel image named "shirt.png" the
assembled record has color "red", category "shirt" and description
"Red shirt", which differs from "Red Shirt", the form with each word
capitalized that the claim states. -/
theorem description_not_fully_capitalized :
    (build_item "id0" [⟨255, 0, 0⟩] "shirt.png" "wardrobe/shirt.png").color = "red" ∧
    (build_item "id0" [⟨255, 0, 0⟩] "shirt.png" "wardrobe/shirt.png").category = "shirt" ∧
    (build_item "id0" [⟨255, 0, 0⟩] "shirt.png" "wardrobe/shirt.png").description =
      "Red shirt" ∧
    titleStr ("red" ++ " " ++ "shirt") = "Red Shirt" ∧
    (build_item "id0" [⟨255, 0, 0⟩] "shirt.png" "wardrobe/shirt.png").description ≠
      titleStr ("red" ++ " " ++ "shirt") := by
  have hcat : detect_category "shirt.png" = "shirt" := by decide
  refine ⟨analyze_red, hcat, ?_, by decide, ?_⟩
  · show mkDescription (analyze_color [⟨255, 0, 0⟩]) (detect_category "shirt.png") =
      "Red shirt"
    rw [analyze_red, hcat]
    decide
  · show mkDescription (analyze_color [⟨255, 0, 0⟩]) (detect_category "shirt.png") ≠
      titleStr ("red" ++ " " ++ "shirt")
    rw [analyze_red, hcat]
    decide

/-- C7: re-running the analysis stages on the same stored pixels reproduces
the same color, category and description, and re-analysis leaves the id,
filename and path fields of any record unchanged. -/
theorem reanalyze_frame (item : WardrobeItem) (pixels : List RGB)
    (newId filename path : String) :
    (reanalyze item pixels).id = item.id ∧
    (reanalyze item pixels).filename = item.filename ∧
    (reanalyze item pixels).path = item.path ∧
    reanalyze (build_item newId pixels filename path) pixels =
      build_item newId pixels filename path :=
  ⟨rfl, rfl, rfl, rfl⟩

/-! ### Upload route (backend index.js) -/

/-- An uploaded file as multer presents it. -/
structure UploadFile where
  originalname : String
  buffer : List ℕ
  mimetype : String
deriving DecidableEq, Repr

/-- Outcome of the upload route: HTTP status, optional error message, and
the file forwarded to the AI service, if any. -/
structure RouteResult where
  status : ℕ
  error : Option String
  forwarded : Option UploadFile
deriving DecidableEq, Repr

/-- The multer fileSize limit of the source configuration. -/
def fileSizeLimit : ℕ := 10 * 1024 * 1024

/-- Modelled from the spec: multer memory storage itself is library code
not under src; under the configured limits it accepts a file exactly
when its byte length does not exceed the fileSize limit, and a larger
file aborts the request with an error before the route handler runs. -/
def multerAccept (f : UploadFile) : Bool :=
  decide (f.buffer.length ≤ fileSizeLimit)

/-- The /api/upload route handler body: with no file it answers 400
"No image file provided" and forwards nothing; with a file it forwards
the file to the AI service, answering 200 on success and 500 "Failed to
process image" when the AI service call fails. -/
def uploadRoute (aiOk : Bool) (file : Option UploadFile) : RouteResult :=
  match file with
  | none => { status := 400, error := some "No image file provided", forwarded := none }
  | some f =>
    if aiOk then { status := 200, error := none, forwarded := some f }
    else { status := 500, error := some "Failed to process image", forwarded := some f }

/-- The full upload path: the multer middleware (size limit) followed by the
route handler body; a multer rejection surfaces as an error response
with nothing forwarded. -/
def handleUpload (aiOk : Bool) (file : Option UploadFile) : RouteResult :=
  match file with
  | none => uploadRoute aiOk none
  | some f =>
    if multerAccept f then uploadRoute aiOk (some f)
    else { status := 500, error := some "Failed to process image", forwarded := none }

/-- Modelled from the spec: the metadata store appends exactly one record
per upload forwarded to the AI service and is untouched otherwise. -/
def applyUpload (store : List WardrobeItem) (mkItem : UploadFile → WardrobeItem)
    (res : RouteResult) : List WardrobeItem :=
  match res.forwarded with
  | none => store
  | some f => store ++ [mkItem f]

/-- C9: a request with no image file answers 400 with error
"No image file provided", forwards nothing to the AI service, and leaves
the stored wardrobe state unchanged. -/
theorem upload_no_file (aiOk : Bool) (store : List WardrobeItem)
    (mkItem : UploadFile → WardrobeItem) :
    (handleUpload aiOk none).status = 400 ∧
    (handleUpload aiOk none).error = some "No image file provided" ∧
    (handleUpload aiOk none).forwarded = none ∧
    applyUpload store mkItem (handleUpload aiOk none) = store :=
  ⟨rfl, rfl, rfl, rfl⟩

/-- C10: a file larger than the 10 MiB limit is rejected by the multer
stage with an error response and is never forwarded to the AI service. -/
theorem upload_size_limit (aiOk : Bool) (f : UploadFile)
    (hbig : fileSizeLimit < f.buffer.length) :
    multerAccept f = false ∧
    (handleUpload aiOk (some f)).forwarded = none ∧
    (handleUpload aiOk (some f)).error = some "Failed to process image" ∧
    (handleUpload aiOk (some f)).status = 500 := by
  have hacc : multerAccept f = false := by
    unfold multerAccept
    simp only [decide_eq_false_iff_not]
    exact Nat.not_le.mpr hbig
  refine ⟨hacc, ?_, ?_, ?_⟩ <;> simp [handleUpload, hacc]

/-- A file one byte over the configured limit. -/
def oversizedFile : UploadFile :=
  { originalname := "big.png", buffer := List.replicate (fileSizeLimit + 1) 0,
    mimetype := "image/png" }

/-- C10 witness: the oversized file exceeds the limit and is rejected
without being forwarded. -/
theorem upload_size_limit_witness :
    multerAccept oversizedFile = false ∧
    (handleUpload true (some oversizedFile)).forwarded = none ∧
    (handleUpload true (some oversizedFile)).error = some "Failed to process image" ∧
    (handleUpload true (some oversizedFile)).status = 500 :=
  upload_size_limit true oversizedFile
    (by
      have h : oversizedFile.buffer.length = fileSizeLimit + 1 := by
        rw [show oversizedFile.buffer = List.replicate (fileSizeLimit + 1) 0 from rfl,
          List.length_replicate]
      rw [h]
      exact Nat.lt_succ_self _)

end AIStylist
